import Mathlib

/-!
Verification of the Stock Analysis Agent web application (src/main/app.py).

The application is glue code around external collaborators: a market-data
provider, a news-search provider, arbitrary article web pages, a
lexicon-based sentiment scorer, an LLM agent runtime and a chart renderer.
The embedding below keeps the glue logic exactly as written and passes the
results of the external collaborators in as explicit inputs:

* prices (pandas floats) are modelled as rationals;
* the parsed JSON body of the news-search response is a `Json` value, with
  the Python dict/iteration semantics of the access patterns used;
* the HTTP fetch inside the article extractor is a `FetchOutcome` (either
  an exception or a status code plus extracted paragraph texts);
* the TextBlob polarity computation is a function from text to a rational;
* the crew kickoff is a function from the assembled article details to an
  `Except` value (exception message or narrative text);
* the plotly figure serialisation is a function from symbol and series to
  the embeddable markup string.

The request handler `home` is split into its GET rendering (`home_get`)
and its POST pipeline (`home_post`); `home_post` also returns a `Trace`
recording which external calls the control flow reached, mirroring the
call sites of the Python code one for one.
-/

namespace StockApp

/-- One row of the intraday data frame, newest-first; the handler only
reads the close column (named "4. close" in the source). -/
structure Row where
  close : ℚ
deriving Repr, DecidableEq

/-- Python source, line 28: the hardcoded credential dictionary. -/
def USER_CREDENTIALS : List (String × String) := [("admin", "password123")]

/-- Python dict lookup returning an Option, as dict.get(key) does. -/
def dictGet (d : List (String × String)) (k : String) : Option String :=
  (d.find? (fun p => p.1 == k)).map (fun p => p.2)

/-- Response of the login route: a redirect to the home route, or the
login template rendered again with the flashed messages. -/
inductive LoginResponse
  | redirectHome
  | renderLoginPage (flashes : List String)
deriving Repr, DecidableEq

/-- Result of the login handler: the response plus the session entry for
the key "username" after the request (none when nothing was stored). -/
structure LoginResult where
  response : LoginResponse
  sessionUsername : Option String
deriving Repr, DecidableEq

/-- Embedding of the login route (source lines 118 to 127), POST branch:
on a matching credential pair the session entry is set and the handler
redirects; otherwise a flash message is recorded and the form re-renders. -/
def login (user pwd : String) : LoginResult :=
  if dictGet USER_CREDENTIALS user = some pwd then
    { response := LoginResponse.redirectHome, sessionUsername := some user }
  else
    { response := LoginResponse.renderLoginPage ["Invalid credentials."],
      sessionUsername := none }

/-- Embedding of get_stock_symbols (source lines 33 to 39): the body reads
the CSV and projects the symbol column; the read outcome is passed in.
A table is a list of named columns. -/
def read_symbol_column (columns : List (String × List String)) :
    Except String (List String) :=
  match columns.find? (fun c => c.1 == "symbol") with
  | some c => Except.ok c.2
  | none => Except.error "KeyError: symbol"

/-- get_stock_symbols wraps the body in a catch-all that returns the empty
list on any failure (file error from read_csv, or missing symbol column). -/
def get_stock_symbols
    (readResult : Except String (List (String × List String))) : List String :=
  match readResult.bind read_symbol_column with
  | Except.ok symbols => symbols
  | Except.error _ => []

/-- get_latest_price (source lines 46 to 47): the close of the first row
of the newest-first frame, or none when the frame is empty. -/
def get_latest_price (df : List Row) : Option ℚ :=
  match df with
  | [] => none
  | r :: _ => some r.close

/-- Parsed JSON values, as handed back by json.loads on the news-search
response body. -/
inductive Json
  | null
  | bool (b : Bool)
  | num (q : ℚ)
  | str (s : String)
  | arr (elems : List Json)
  | obj (fields : List (String × Json))

/-- Python dict.get(key, default): succeeds on dict values, returning the
stored value or the default; on any other value the attribute access
raises AttributeError. -/
def Json.getField : Json → String → Json → Except String Json
  | Json.obj fields, key, dflt =>
      Except.ok (((fields.find? (fun p => p.1 == key)).map (fun p => p.2)).getD dflt)
  | _, _, _ => Except.error "AttributeError"

/-- Python iteration over a JSON value: lists yield their elements,
strings their characters as one-character strings, dicts their keys;
iterating any other value raises TypeError. -/
def Json.iterate : Json → Except String (List Json)
  | Json.arr elems => Except.ok elems
  | Json.str s => Except.ok (s.toList.map (fun c => Json.str (String.singleton c)))
  | Json.obj fields => Except.ok (fields.map (fun p => Json.str p.1))
  | _ => Except.error "TypeError"

/-- Embedding of get_stock_news (source lines 49 to 64) applied to the
parsed response body: response_data.get("news", []) iterated, taking
article.get("link", "") of each entry. Errors are uncaught exceptions. -/
def get_stock_news (response_data : Json) : Except String (List Json) := do
  let news ← response_data.getField "news" (Json.arr [])
  let articles ← news.iterate
  articles.mapM (fun a => a.getField "link" (Json.str ""))

/-- Outcome of the blocking HTTP GET inside fetch_article_content: either
the request raised an exception carrying a message, or it completed with a
status code and the texts of the paragraph elements of the page. -/
inductive FetchOutcome
  | exn (msg : String)
  | response (status : ℕ) (paragraphs : List String)
deriving Repr, DecidableEq

/-- fetch_article_content (source lines 66 to 74): on status 200 the
paragraph texts are joined with single spaces; any other status yields the
fixed marker string; an exception is converted to its message. -/
def fetch_article_content : FetchOutcome → String
  | FetchOutcome.exn msg => msg
  | FetchOutcome.response status paragraphs =>
      if status = 200 then String.intercalate " " paragraphs
      else "Failed to fetch content"

/-- analyze_article_content (source lines 76 to 82), with the TextBlob
polarity computation passed in as a function from text to a rational. -/
def analyze_article_content (polarity : String → ℚ) (text : String) : String :=
  if polarity text > 0 then "Positive sentiment detected"
  else if polarity text < 0 then "Negative sentiment detected"
  else "Neutral sentiment detected"

/-- get_article_details (source lines 84 to 90): fetches every link,
scores the fetched content, and formats one line per article. -/
def get_article_details (fetch : String → FetchOutcome) (polarity : String → ℚ)
    (links : List String) : List String :=
  links.map (fun link =>
    "Article from " ++ link ++ ": " ++
      analyze_article_content polarity (fetch_article_content (fetch link)))

/-- Rounding of a rational to the nearest integer, ties to even, as CPython
float formatting does when printing to a fixed number of decimals. -/
def roundHalfEven (x : ℚ) : ℤ :=
  if x - ⌊x⌋ < 1/2 then ⌊x⌋
  else if 1/2 < x - ⌊x⌋ then ⌊x⌋ + 1
  else if ⌊x⌋ % 2 = 0 then ⌊x⌋ else ⌊x⌋ + 1

/-- Two-digit zero padding for the fractional part. -/
def pad2 (n : ℕ) : String := if n < 10 then "0" ++ toString n else toString n

/-- The Python format specification "+.2f": an explicit sign followed by
the magnitude rounded to two decimal places. -/
def formatSignedTwo (q : ℚ) : String :=
  (if q < 0 then "-" else "+") ++
    toString ((roundHalfEven (|q| * 100)).toNat / 100) ++ "." ++
    pad2 ((roundHalfEven (|q| * 100)).toNat % 100)

/-- The template context rendered by the home route (source lines 207 to
215): the narrative text, the optional chart markup, and the price data. -/
structure RenderModel where
  output_text : String
  graph_html : Option String
  stock_price : Option ℚ
  price_change_text : Option String
  price_change_class : Option String
  stock_symbols : List String
deriving Repr

/-- Which external calls the POST control flow reached, one flag or count
per call site of the Python handler. -/
structure Trace where
  newsDiscovery : Bool
  articlesFetched : ℕ
  sentimentsScored : ℕ
  crewRan : Bool
  chartRendered : Bool
deriving Repr, DecidableEq

/-- The GET branch of the home route: no pipeline runs, the template is
rendered with the symbol list and empty defaults. -/
def home_get (stock_symbols : List String) : RenderModel :=
  { output_text := ""
    graph_html := none
    stock_price := none
    price_change_text := none
    price_change_class := none
    stock_symbols := stock_symbols }

/-- The POST branch of the home route (source lines 139 to 215). The data
frame, the news links, the fetch results, the polarity function, the chart
serialiser and the crew outcome stand for the external collaborators. The
Python code fetches news and article details before testing df.empty; on
an empty frame it only sets the no-data message, otherwise it computes the
price change, runs the crew inside a try block that converts an exception
into an inline error string, and renders the chart. -/
def home_post (stock_symbols : List String) (symbol : String) (df : List Row)
    (links : List String) (fetch : String → FetchOutcome)
    (polarity : String → ℚ) (chart : String → List Row → String)
    (crew : List String → Except String String) : RenderModel × Trace :=
  let article_details := get_article_details fetch polarity links
  match df with
  | [] =>
    ({ output_text := "No data available for symbol " ++ symbol
       graph_html := none
       stock_price := none
       price_change_text := none
       price_change_class := none
       stock_symbols := stock_symbols },
     { newsDiscovery := true
       articlesFetched := links.length
       sentimentsScored := links.length
       crewRan := false
       chartRendered := false })
  | r :: rest =>
    let stock_price := (get_latest_price (r :: rest)).getD r.close
    let old_price := ((r :: rest).getLast?.getD r).close
    let price_change := ((stock_price - old_price) / old_price) * 100
    let output_text :=
      match crew article_details with
      | Except.ok narrative => narrative
      | Except.error e => "Error during execution: " ++ e
    ({ output_text := output_text
       graph_html := some (chart symbol (r :: rest))
       stock_price := some stock_price
       price_change_text := some (formatSignedTwo price_change ++ "%")
       price_change_class :=
         some (if price_change ≥ 0 then "positive" else "negative")
       stock_symbols := stock_symbols },
     { newsDiscovery := true
       articlesFetched := links.length
       sentimentsScored := links.length
       crewRan := true
       chartRendered := true })

/-! Helper lemmas on the formatting model, shared by several claims. -/

lemma roundHalfEven_5000_div_19 : roundHalfEven ((5000 : ℚ) / 19) = 263 := by
  have hfloor : ⌊(5000 : ℚ) / 19⌋ = 263 := by norm_num
  unfold roundHalfEven
  rw [hfloor]
  rw [if_pos (by norm_num)]

lemma formatSignedTwo_example : formatSignedTwo (((195 : ℚ) - 190) / 190 * 100) = "+2.63" := by
  have hq : ((195 : ℚ) - 190) / 190 * 100 = 50 / 19 := by norm_num
  have habs : |(50 : ℚ) / 19| * 100 = 5000 / 19 := by
    rw [abs_of_nonneg (by norm_num)]
    norm_num
  unfold formatSignedTwo
  rw [hq, habs, roundHalfEven_5000_div_19, if_neg (by norm_num)]
  rfl

/-- C1: for every non-empty price series (newest-first) the handler sets
price_change_text to the percentage change, latest close minus the oldest
close in the fetched window divided by that oldest close and scaled by
100, formatted with an explicit sign and two decimal places; the latest
close is the close of the first row (the value of get_latest_price) and
the oldest is the close of the last row. In particular a series whose
closes run from 190 (oldest) up to 195 (latest) yields the text "+2.63%"
and the class "positive". -/
theorem home_price_change_formula (stock_symbols : List String) (symbol : String)
    (r : Row) (rest : List Row) (links : List String)
    (fetch : String → FetchOutcome) (polarity : String → ℚ)
    (chart : String → List Row → String)
    (crew : List String → Except String String) :
    ((home_post stock_symbols symbol (r :: rest) links fetch polarity chart crew).1.stock_price
        = get_latest_price (r :: rest)
      ∧ (home_post stock_symbols symbol (r :: rest) links fetch polarity chart crew).1.price_change_text
        = some (formatSignedTwo
            ((r.close - ((r :: rest).getLast?.getD r).close)
              / ((r :: rest).getLast?.getD r).close * 100) ++ "%"))
    ∧ (home_post ["AAPL"] "AAPL" [⟨195⟩, ⟨192⟩, ⟨190⟩] [] (fun _ => FetchOutcome.exn "")
          (fun _ => 0) (fun _ _ => "") (fun _ => Except.ok "")).1.price_change_text
        = some "+2.63%"
    ∧ (home_post ["AAPL"] "AAPL" [⟨195⟩, ⟨192⟩, ⟨190⟩] [] (fun _ => FetchOutcome.exn "")
          (fun _ => 0) (fun _ _ => "") (fun _ => Except.ok "")).1.price_change_class
        = some "positive" := by
  refine ⟨⟨rfl, rfl⟩, ?_, ?_⟩
  · show some (formatSignedTwo (((195 : ℚ) - 190) / 190 * 100) ++ "%") = some "+2.63%"
    rw [formatSignedTwo_example]
    rfl
  · show some (if ((195 : ℚ) - 190) / 190 * 100 ≥ 0 then "positive" else "negative")
        = some "positive"
    rw [if_pos (by norm_num)]

/-- C2: for every POST whose fetched intraday series is empty, the handler
reports the no-data message for the submitted symbol, produces no chart
markup, and starts neither the chart renderer nor the crew run. -/
theorem home_empty_series_no_chart_no_agent (stock_symbols : List String)
    (symbol : String) (links : List String) (fetch : String → FetchOutcome)
    (polarity : String → ℚ) (chart : String → List Row → String)
    (crew : List String → Except String String) :
    (home_post stock_symbols symbol [] links fetch polarity chart crew).1.output_text
        = "No data available for symbol " ++ symbol
    ∧ (home_post stock_symbols symbol [] links fetch polarity chart crew).1.graph_html = none
    ∧ (home_post stock_symbols symbol [] links fetch polarity chart crew).2.crewRan = false
    ∧ (home_post stock_symbols symbol [] links fetch polarity chart crew).2.chartRendered = false :=
  ⟨rfl, rfl, rfl, rfl⟩

/-- C9: for every non-empty price series the rendered class is "positive"
exactly when the computed percentage change is at least 0 and "negative"
otherwise; in particular a change of exactly 0 (equal oldest and latest
closes) is classed "positive". -/
theorem home_price_change_class_sign (stock_symbols : List String) (symbol : String)
    (r : Row) (rest : List Row) (links : List String)
    (fetch : String → FetchOutcome) (polarity : String → ℚ)
    (chart : String → List Row → String)
    (crew : List String → Except String String) :
    (home_post stock_symbols symbol (r :: rest) links fetch polarity chart crew).1.price_change_class
        = some (if (r.close - ((r :: rest).getLast?.getD r).close)
                  / ((r :: rest).getLast?.getD r).close * 100 ≥ 0
                then "positive" else "negative")
    ∧ (home_post ["AAPL"] "AAPL" [⟨190⟩, ⟨190⟩] [] (fun _ => FetchOutcome.exn "")
          (fun _ => 0) (fun _ _ => "") (fun _ => Except.ok "")).1.price_change_class
        = some "positive" := by
  refine ⟨rfl, ?_⟩
  show some (if ((190 : ℚ) - 190) / 190 * 100 ≥ 0 then "positive" else "negative")
      = some "positive"
  rw [if_pos (by norm_num)]

/-- C5: for every exception raised by the crew run on a non-empty series,
the handler substitutes a single string, the fixed error marker followed
by the exception message, for the narrative, and the request still completes a
full render: the chart markup is produced and the price fields are set. -/
theorem home_crew_exception_handled (stock_symbols : List String) (symbol : String)
    (r : Row) (rest : List Row) (links : List String)
    (fetch : String → FetchOutcome) (polarity : String → ℚ)
    (chart : String → List Row → String)
    (crew : List String → Except String String) (e : String)
    (h : crew (get_article_details fetch polarity links) = Except.error e) :
    (home_post stock_symbols symbol (r :: rest) links fetch polarity chart crew).1.output_text
        = "Error during execution: " ++ e
    ∧ (home_post stock_symbols symbol (r :: rest) links fetch polarity chart crew).1.graph_html
        = some (chart symbol (r :: rest))
    ∧ (home_post stock_symbols symbol (r :: rest) links fetch polarity chart crew).2.chartRendered
        = true := by
  refine ⟨?_, rfl, rfl⟩
  show (match crew (get_article_details fetch polarity links) with
        | Except.ok narrative => narrative
        | Except.error e => "Error during execution: " ++ e)
      = "Error during execution: " ++ e
  rw [h]

theorem home_crew_exception_handled_witness :
    (home_post ["AAPL"] "AAPL" [⟨195⟩] [] (fun _ => FetchOutcome.exn "")
        (fun _ => 0) (fun _ _ => "<div>") (fun _ => Except.error "boom")).1.output_text
        = "Error during execution: " ++ "boom"
    ∧ (home_post ["AAPL"] "AAPL" [⟨195⟩] [] (fun _ => FetchOutcome.exn "")
        (fun _ => 0) (fun _ _ => "<div>") (fun _ => Except.error "boom")).1.graph_html
        = some "<div>"
    ∧ (home_post ["AAPL"] "AAPL" [⟨195⟩] [] (fun _ => FetchOutcome.exn "")
        (fun _ => 0) (fun _ _ => "<div>") (fun _ => Except.error "boom")).2.chartRendered
        = true :=
  home_crew_exception_handled ["AAPL"] "AAPL" ⟨195⟩ [] []
    (fun _ => FetchOutcome.exn "") (fun _ => 0) (fun _ _ => "<div>")
    (fun _ => Except.error "boom") "boom" rfl

/-- C6 counterexample: with an empty price series and one news link, the
handler still performs news discovery, fetches the article and scores its
sentiment, so the claim that an empty series short-circuits news
discovery, article extraction and sentiment scoring is false. -/
theorem home_empty_series_still_fetches_news :
    (home_post ["AAPL"] "AAPL" [] ["u"] (fun _ => FetchOutcome.response 404 [])
        (fun _ => 0) (fun _ _ => "") (fun _ => Except.ok "")).2.newsDiscovery = true
    ∧ (home_post ["AAPL"] "AAPL" [] ["u"] (fun _ => FetchOutcome.response 404 [])
        (fun _ => 0) (fun _ _ => "") (fun _ => Except.ok "")).2.articlesFetched = 1
    ∧ (home_post ["AAPL"] "AAPL" [] ["u"] (fun _ => FetchOutcome.response 404 [])
        (fun _ => 0) (fun _ _ => "") (fun _ => Except.ok "")).2.sentimentsScored = 1 :=
  ⟨rfl, rfl, rfl⟩

/-- C6 (amended): on an empty price series the handler reports the no-data
message and skips the crew run and the chart rendering, but news
discovery, article extraction and sentiment scoring still happen for all
fetched links before the emptiness test. -/
theorem home_empty_series_skips_crew_and_chart (stock_symbols : List String)
    (symbol : String) (links : List String) (fetch : String → FetchOutcome)
    (polarity : String → ℚ) (chart : String → List Row → String)
    (crew : List String → Except String String) :
    (home_post stock_symbols symbol [] links fetch polarity chart crew).1.output_text
        = "No data available for symbol " ++ symbol
    ∧ (home_post stock_symbols symbol [] links fetch polarity chart crew).2.crewRan = false
    ∧ (home_post stock_symbols symbol [] links fetch polarity chart crew).2.chartRendered = false
    ∧ (home_post stock_symbols symbol [] links fetch polarity chart crew).2.newsDiscovery = true
    ∧ (home_post stock_symbols symbol [] links fetch polarity chart crew).2.articlesFetched
        = links.length
    ∧ (home_post stock_symbols symbol [] links fetch polarity chart crew).2.sentimentsScored
        = links.length :=
  ⟨rfl, rfl, rfl, rfl, rfl, rfl⟩

/-- C3: the sentiment scorer returns exactly one of the three labels by a
strict trichotomy on the computed polarity: strictly positive polarity
yields the positive label, strictly negative the negative label, and
exactly zero the neutral label. -/
theorem analyze_sentiment_trichotomy (polarity : String → ℚ) (text : String) :
    (analyze_article_content polarity text = "Positive sentiment detected"
      ∨ analyze_article_content polarity text = "Negative sentiment detected"
      ∨ analyze_article_content polarity text = "Neutral sentiment detected")
    ∧ (0 < polarity text →
        analyze_article_content polarity text = "Positive sentiment detected")
    ∧ (polarity text < 0 →
        analyze_article_content polarity text = "Negative sentiment detected")
    ∧ (polarity text = 0 →
        analyze_article_content polarity text = "Neutral sentiment detected") := by
  have hpos : 0 < polarity text →
      analyze_article_content polarity text = "Positive sentiment detected" := by
    intro h
    simp [analyze_article_content, h]
  have hneg : polarity text < 0 →
      analyze_article_content polarity text = "Negative sentiment detected" := by
    intro h
    have h0 : ¬ polarity text > 0 := asymm h
    simp [analyze_article_content, h0, h]
  have hzer : polarity text = 0 →
      analyze_article_content polarity text = "Neutral sentiment detected" := by
    intro h
    simp [analyze_article_content, h]
  refine ⟨?_, hpos, hneg, hzer⟩
  rcases lt_trichotomy (polarity text) 0 with h | h | h
  · exact Or.inr (Or.inl (hneg h))
  · exact Or.inr (Or.inr (hzer h))
  · exact Or.inl (hpos h)

theorem analyze_sentiment_trichotomy_witness :
    analyze_article_content (fun _ => 1) "t" = "Positive sentiment detected"
    ∧ analyze_article_content (fun _ => -1) "t" = "Negative sentiment detected"
    ∧ analyze_article_content (fun _ => 0) "t" = "Neutral sentiment detected" :=
  ⟨(analyze_sentiment_trichotomy (fun _ => 1) "t").2.1 (by norm_num),
   (analyze_sentiment_trichotomy (fun _ => -1) "t").2.2.1 (by norm_num),
   (analyze_sentiment_trichotomy (fun _ => 0) "t").2.2.2 rfl⟩

/-- C4: a fetch that completes with a non-200 status makes the extractor
return the fixed marker string rather than raise, and get_article_details
passes that marker into the sentiment scorer and labels it like ordinary
article text. -/
theorem fetch_failure_marker_flows_to_scorer (link : String) (status : ℕ)
    (paragraphs : List String) (fetch : String → FetchOutcome)
    (polarity : String → ℚ)
    (hstatus : status ≠ 200)
    (hfetch : fetch link = FetchOutcome.response status paragraphs) :
    fetch_article_content (FetchOutcome.response status paragraphs)
        = "Failed to fetch content"
    ∧ get_article_details fetch polarity [link]
        = ["Article from " ++ link ++ ": "
            ++ analyze_article_content polarity "Failed to fetch content"] := by
  have hmark : fetch_article_content (FetchOutcome.response status paragraphs)
      = "Failed to fetch content" := by
    simp [fetch_article_content, hstatus]
  exact ⟨hmark, by simp [get_article_details, hfetch, hmark]⟩

theorem fetch_failure_marker_flows_to_scorer_witness :
    fetch_article_content (FetchOutcome.response 404 []) = "Failed to fetch content"
    ∧ get_article_details (fun _ => FetchOutcome.response 404 []) (fun _ => 0) ["u"]
        = ["Article from " ++ "u" ++ ": "
            ++ analyze_article_content (fun _ => 0) "Failed to fetch content"] :=
  fetch_failure_marker_flows_to_scorer "u" 404 []
    (fun _ => FetchOutcome.response 404 []) (fun _ => 0) (by decide) rfl

/-- C8: exactly the hardcoded pair admin / password123 stores the session
entry and redirects to the home route; every other pair re-renders the
login form with the flash message and stores no session entry. -/
theorem login_checks_hardcoded_pair (user pwd : String) :
    (user = "admin" ∧ pwd = "password123" →
      login user pwd
        = { response := LoginResponse.redirectHome, sessionUsername := some user })
    ∧ (¬(user = "admin" ∧ pwd = "password123") →
      login user pwd
        = { response := LoginResponse.renderLoginPage ["Invalid credentials."],
            sessionUsername := none }) := by
  constructor
  · rintro ⟨hu, hp⟩
    subst hu
    subst hp
    rfl
  · intro h
    by_cases hu : user = "admin"
    · have hp : pwd ≠ "password123" := fun hp => h ⟨hu, hp⟩
      subst hu
      simp only [login, dictGet, USER_CREDENTIALS]
      simp
      exact fun he => hp he.symm
    · simp only [login, dictGet, USER_CREDENTIALS]
      simp
      exact fun he => absurd he.symm hu

theorem login_checks_hardcoded_pair_witness :
    login "admin" "password123"
        = { response := LoginResponse.redirectHome, sessionUsername := some "admin" }
    ∧ login "admin" "wrong"
        = { response := LoginResponse.renderLoginPage ["Invalid credentials."],
            sessionUsername := none } :=
  ⟨(login_checks_hardcoded_pair "admin" "password123").1 ⟨rfl, rfl⟩,
   (login_checks_hardcoded_pair "admin" "wrong").2 (by decide)⟩

/-- C10: the symbol catalog loader swallows every failure: a read error
from the CSV file or a table without the symbol column both produce the
empty list, and the home route still renders with an empty symbol list. -/
theorem get_stock_symbols_swallows_failures (msg : String)
    (columns : List (String × List String))
    (h : columns.find? (fun c => c.1 == "symbol") = none) :
    (get_stock_symbols (Except.error msg) = []
      ∧ (home_get (get_stock_symbols (Except.error msg))).stock_symbols = [])
    ∧ (get_stock_symbols (Except.ok columns) = []
      ∧ (home_get (get_stock_symbols (Except.ok columns))).stock_symbols = []) := by
  have hsym : get_stock_symbols (Except.ok columns) = [] := by
    simp [get_stock_symbols, read_symbol_column, Except.bind, h]
  exact ⟨⟨rfl, rfl⟩, hsym, by rw [hsym]; rfl⟩

theorem get_stock_symbols_swallows_failures_witness :
    (get_stock_symbols (Except.error "file missing") = []
      ∧ (home_get (get_stock_symbols (Except.error "file missing"))).stock_symbols = [])
    ∧ (get_stock_symbols (Except.ok [("name", ["x"])]) = []
      ∧ (home_get (get_stock_symbols (Except.ok [("name", ["x"])]))).stock_symbols = []) :=
  get_stock_symbols_swallows_failures "file missing" [("name", ["x"])] rfl

/-- C7 counterexample: a provider response that is valid JSON but not an
object (here the JSON string "ok") makes the attribute access inside
get_stock_news raise, so the client yields an exception instead of an
empty list, and nothing in the request handler catches it. -/
theorem get_stock_news_nonobject_response_raises :
    get_stock_news (Json.str "ok") = Except.error "AttributeError" := rfl

lemma mapM_getField_link (articles : List (List (String × Json))) :
    (articles.map Json.obj).mapM (fun a => a.getField "link" (Json.str ""))
      = Except.ok (articles.map (fun a =>
          ((a.find? (fun p => p.1 == "link")).map (fun p => p.2)).getD (Json.str ""))) := by
  induction articles with
  | nil => rfl
  | cons a as ih =>
    simp only [List.map_cons, List.mapM_cons, ih]
    rfl

/-- C7 (amended): when the parsed provider response is a JSON object, a
missing news field yields the empty link list and article objects missing
a link field yield empty-string links; but a response that is not a JSON
object (or whose news entries are not objects) raises an exception that
propagates out of the news discovery client. -/
theorem get_stock_news_field_defaults (fields : List (String × Json))
    (articles : List (List (String × Json))) :
    (fields.find? (fun p => p.1 == "news") = none →
      get_stock_news (Json.obj fields) = Except.ok [])
    ∧ ((fields.find? (fun p => p.1 == "news")).map (fun p => p.2)
          = some (Json.arr (articles.map Json.obj)) →
      get_stock_news (Json.obj fields)
        = Except.ok (articles.map (fun a =>
            ((a.find? (fun p => p.1 == "link")).map (fun p => p.2)).getD (Json.str "")))) := by
  constructor
  · intro h
    have hfield : Json.getField (Json.obj fields) "news" (Json.arr [])
        = Except.ok (Json.arr []) := by
      simp only [Json.getField]
      rw [h]
      rfl
    unfold get_stock_news
    rw [hfield]
    rfl
  · intro h
    have hfield : Json.getField (Json.obj fields) "news" (Json.arr [])
        = Except.ok (Json.arr (articles.map Json.obj)) := by
      simp only [Json.getField]
      rw [h]
      rfl
    unfold get_stock_news
    rw [hfield]
    exact mapM_getField_link articles

theorem get_stock_news_field_defaults_witness :
    (([("q", Json.str "AAPL stock news")] : List (String × Json)).find?
        (fun p => p.1 == "news") = none
      ∧ get_stock_news (Json.obj [("q", Json.str "AAPL stock news")]) = Except.ok [])
    ∧ get_stock_news (Json.obj [("news", Json.arr [Json.obj []])])
        = Except.ok [Json.str ""] :=
  ⟨⟨rfl, (get_stock_news_field_defaults [("q", Json.str "AAPL stock news")] []).1 rfl⟩,
   (get_stock_news_field_defaults [("news", Json.arr [Json.obj []])] [[]]).2 rfl⟩

end StockApp
